import Mathlib

/-!
# PRKit `FilledPolygon`: a shallow embedding

The embedding follows `PRKit/PRFilledPolygon.h` and `PRKit/PRFilledPolygon.cpp`.

* `float` values are exact rationals (`ℚ`): the statements below are statements of exact
  arithmetic, rounding is not part of the model.
* A C++ pointer that may be `nullptr` is an `Option`; an operation that dereferences a null
  pointer or fails its `CCASSERT` returns `none`.
* What the two files use but do not define (the triangulator of `triangulate.h`, the content
  scale factor, `ccNextPOT`, the default blend pair) is collected in `Engine` and taken as a
  parameter.
-/

namespace PRKit

/-! ## Engine types used by the class -/

/-- The engine's `Vec2`: two `float` fields, here exact rationals. -/
structure Vec2 where
  x : ℚ
  y : ℚ
deriving DecidableEq

/-- The constant `Vec2::ZERO`. -/
def Vec2.ZERO : Vec2 := ⟨0, 0⟩

/-- The engine's `Vec2::operator-`. -/
def Vec2.sub (a b : Vec2) : Vec2 := ⟨a.x - b.x, a.y - b.y⟩

instance : Sub Vec2 := ⟨Vec2.sub⟩

/-- The engine's `Size`. -/
structure Size where
  width : ℚ
  height : ℚ
deriving DecidableEq

/-- The explicit conversion `Size(const Vec2&)`. -/
def Size.ofVec2 (p : Vec2) : Size := ⟨p.x, p.y⟩

/-- The value of `std::numeric_limits<float>::max()`, `(2^24 - 1) * 2^104`. -/
def FLT_MAX : ℚ := 340282346638528859811704183484516925440

/-- An OpenGL enumerant. -/
abbrev GLenum := Nat

def GL_SRC_ALPHA : GLenum := 0x0302
def GL_ONE_MINUS_SRC_ALPHA : GLenum := 0x0303
def GL_LINEAR : GLenum := 0x2601
def GL_REPEAT : GLenum := 0x2901

/-- The engine's `BlendFunc`, a pair of blend factors. -/
structure BlendFunc where
  src : GLenum
  dst : GLenum
deriving DecidableEq

/-- The engine's `Texture2D::TexParams`. -/
structure TexParams where
  minFilter : GLenum
  magFilter : GLenum
  wrapS : GLenum
  wrapT : GLenum
deriving DecidableEq

/-- The part of a `Texture2D` object the class reads or writes. `addr` is the address of the
object: two `Texture2D*` are equal exactly when their addresses are. -/
structure Texture2D where
  addr : Nat
  pixelsWide : Int
  pixelsHigh : Int
  premultipliedAlpha : Bool
  texParameters : Option TexParams
deriving DecidableEq

def Texture2D.getPixelsWide (t : Texture2D) : Int := t.pixelsWide

def Texture2D.getPixelsHigh (t : Texture2D) : Int := t.pixelsHigh

def Texture2D.hasPremultipliedAlpha (t : Texture2D) : Bool := t.premultipliedAlpha

def Texture2D.setTexParameters (t : Texture2D) (p : TexParams) : Texture2D :=
  { t with texParameters := some p }

/-- The comparison `a != b` of two `Texture2D*`. -/
def ptrNe (a b : Option Texture2D) : Bool :=
  a.map Texture2D.addr != b.map Texture2D.addr

/-- The engine's `Mat4`, sixteen floats. -/
structure Mat4 where
  m : List ℚ
deriving DecidableEq

/-- The engine's `CustomCommand`: the ordering key set by `init` and the bound callback
`func`, here the arguments `onDraw` was bound to. -/
structure CustomCommand where
  globalOrder : ℚ
  func : Option (Mat4 × Nat)
deriving DecidableEq

/-- The engine's `Renderer`, reduced to its queue of commands. -/
structure Renderer where
  queue : List CustomCommand
deriving DecidableEq

/-- The call `Renderer::addCommand`. -/
def Renderer.addCommand (r : Renderer) (c : CustomCommand) : Renderer :=
  ⟨r.queue ++ [c]⟩

/-- What `PRFilledPolygon.cpp` calls without defining it. `Process` is the result vector that
`Triangulate::Process` of `triangulate.h` fills for a contour, `contentScaleFactor` is the value
of `CC_CONTENT_SCALE_FACTOR()`. -/
structure Engine where
  Process : List Vec2 → List Vec2
  contentScaleFactor : ℚ
  ccNextPOT : Int → Int
  CC_BLEND_SRC : GLenum
  CC_BLEND_DST : GLenum

/-! ## The triangulator

`triangulate.h` and its implementation are not among the sources. The definitions of this
section follow section 4.1 of the specification, in exact arithmetic. -/

namespace Triangulate

/-- Modelled from the spec: the degenerate-input fallback of the triangulator (its source,
`triangulate.h`, is missing). The specification allows two policies when no ear is found:
emit a best-effort triangle and continue, or return the triangles found so far. -/
inductive Fallback where
  | forceEmit
  | stopEarly
deriving DecidableEq

/-- Modelled from the spec: twice the signed area of the triangle `a b c`, the quantity behind
the convexity test and the point-in-triangle test of the triangulator (its source,
`triangulate.h`, is missing). -/
def cross (a b c : Vec2) : ℚ :=
  (b.x - a.x) * (c.y - a.y) - (b.y - a.y) * (c.x - a.x)

/-- Modelled from the spec: twice the signed area of the outline, which gives its winding
(the triangulator's source, `triangulate.h`, is missing). -/
def signedArea2 (outline : List Vec2) : ℚ :=
  ((List.range outline.length).map fun i =>
    let p := outline.getD i Vec2.ZERO
    let q := outline.getD ((i + 1) % outline.length) Vec2.ZERO
    p.x * q.y - q.x * p.y).sum

/-- Modelled from the spec: the winding of the outline, `1` for counter-clockwise and `-1` for
clockwise, so that vertices are classified consistently with it (the triangulator's source,
`triangulate.h`, is missing). -/
def winding (outline : List Vec2) : ℚ :=
  if 0 ≤ signedArea2 outline then 1 else -1

/-- Modelled from the spec: the vertex `b` between `a` and `c` is convex for winding `w`
(the triangulator's source, `triangulate.h`, is missing). -/
def isConvex (w : ℚ) (a b c : Vec2) : Bool :=
  decide (0 < w * cross a b c)

/-- Modelled from the spec: the point `p` lies inside the triangle `a b c`, its boundary
included (the triangulator's source, `triangulate.h`, is missing). -/
def insideTriangle (w : ℚ) (a b c p : Vec2) : Bool :=
  decide (0 ≤ w * cross a b p) && decide (0 ≤ w * cross b c p) && decide (0 ≤ w * cross c a p)

/-- Modelled from the spec: vertex `i` of the working list is an ear tip, "a convex vertex whose
triangle (prev, current, next) contains no other remaining polygon vertex inside it"
(the triangulator's source, `triangulate.h`, is missing). -/
def isEar (w : ℚ) (vs : List Vec2) (i : Nat) : Bool :=
  let n := vs.length
  let ip := (i + n - 1) % n
  let ix := (i + 1) % n
  let a := vs.getD ip Vec2.ZERO
  let b := vs.getD i Vec2.ZERO
  let c := vs.getD ix Vec2.ZERO
  isConvex w a b c &&
    (List.range n).all fun j =>
      decide (j = ip) || decide (j = i) || decide (j = ix)
        || !insideTriangle w a b c (vs.getD j Vec2.ZERO)

/-- Modelled from the spec: the first ear tip of the working list, if there is one
(the triangulator's source, `triangulate.h`, is missing). -/
def findEar (w : ℚ) (vs : List Vec2) : Option Nat :=
  (List.range vs.length).find? (isEar w vs)

/-- Modelled from the spec: the triangle (prev, current, next) at vertex `i` of the working list
(the triangulator's source, `triangulate.h`, is missing). -/
def triangleAt (vs : List Vec2) (i : Nat) : List Vec2 :=
  [vs.getD ((i + vs.length - 1) % vs.length) Vec2.ZERO, vs.getD i Vec2.ZERO,
    vs.getD ((i + 1) % vs.length) Vec2.ZERO]

/-- Modelled from the spec: the ear-clipping loop of the triangulator (its source,
`triangulate.h`, is missing): "repeatedly find a convex vertex whose triangle contains no other
remaining polygon vertex inside it, emit that triangle, and remove the ear tip from the working
vertex list; repeat until 3 vertices remain, emitting the final triangle". When no ear is found,
`forceEmit` emits the triangle of the three lowest-index remaining vertices, removes the middle
one and continues, and `stopEarly` returns what was emitted so far. The first argument bounds
the number of rounds. -/
def earClip (fb : Fallback) (w : ℚ) : Nat → List Vec2 → List Vec2
  | 0, _ => []
  | fuel + 1, vs =>
    if vs.length < 3 then []
    else if vs.length = 3 then vs
    else
      match findEar w vs, fb with
      | some i, _ => triangleAt vs i ++ earClip fb w fuel (vs.eraseIdx i)
      | none, Fallback.forceEmit => vs.take 3 ++ earClip fb w fuel (vs.eraseIdx 1)
      | none, Fallback.stopEarly => []

/-- Modelled from the spec: the contract `triangulate(outline) -> Triangle List` of the
triangulator (its source, `triangulate.h`, is missing). Fewer than 3 points give the empty
list; otherwise ear clipping runs for at most one round per vertex. -/
def triangulate (fb : Fallback) (outline : List Vec2) : List Vec2 :=
  if outline.length < 3 then []
  else earClip fb (winding outline) outline.length outline

end Triangulate

/-! ## The class -/

/-- The data members of `FilledPolygon`, with the two members of `Node` the class reads or
writes (`_contentSize` through `setContentSize`, `_globalZOrder`). `_verticesCount` is an `int`
in the source and holds a `size()`; it is a natural number here. -/
structure FilledPolygon where
  _texture : Option Texture2D
  _blendFunc : BlendFunc
  _customCommand : CustomCommand
  _verticesCount : Nat
  _positionTriangles : Option (List Vec2)
  _textureTriangles : Option (List Vec2)
  _determineBounds : Bool
  _origin : Vec2
  _contentSize : Size
  _globalZOrder : ℚ
deriving DecidableEq

namespace FilledPolygon

def getBoundsOrigin (s : FilledPolygon) : Vec2 := s._origin

def isDetermineBounds (s : FilledPolygon) : Bool := s._determineBounds

def getTexture (s : FilledPolygon) : Option Texture2D := s._texture

def setBlendFunc (s : FilledPolygon) (blendFunc : BlendFunc) : FilledPolygon :=
  { s with _blendFunc := blendFunc }

def getBlendFunc (s : FilledPolygon) : BlendFunc := s._blendFunc

/-- The accessor `Node::getContentSize`. -/
def getContentSize (s : FilledPolygon) : Size := s._contentSize

/-- The call `Node::setContentSize`, as far as the content size goes. -/
def setContentSize (s : FilledPolygon) (size : Size) : FilledPolygon :=
  { s with _contentSize := size }

/-- One pass of the body of the bounds loop of `setTexturePolygon` over a vertex `v`; the pair
is (`_origin`, `_maxBound`). -/
def boundsStep (acc : Vec2 × Vec2) (v : Vec2) : Vec2 × Vec2 :=
  let origin := acc.1
  let maxBound := acc.2
  let origin := if v.x < origin.x then { origin with x := v.x } else origin
  let origin := if v.y < origin.y then { origin with y := v.y } else origin
  let maxBound := if v.x > maxBound.x then { maxBound with x := v.x } else maxBound
  let maxBound := if v.y > maxBound.y then { maxBound with y := v.y } else maxBound
  (origin, maxBound)

/-- The loop `for (int i = 0; i < count; i++) dst[i] = f(src[i]);` over arrays held as lists. -/
def assignLoop (f : Vec2 → Vec2) (count : Nat) (src dst : List Vec2) : List Vec2 :=
  (List.range count).foldl (fun out i => out.set i (f (src.getD i Vec2.ZERO))) dst

/-- The texture coordinate that `calculateTextureCoordinates` stores for a position `p`. -/
def textureCoordinate (e : Engine) (t : Texture2D) (determineBounds : Bool) (origin p : Vec2) :
    Vec2 :=
  if determineBounds then
    { x := (p.x + origin.x) * 1 / (t.getPixelsWide : ℚ) * e.contentScaleFactor
      y := 1 - (p.y + origin.y) * 1 / (t.getPixelsHigh : ℚ) * e.contentScaleFactor }
  else
    { x := p.x * 1 / (t.getPixelsWide : ℚ) * e.contentScaleFactor
      y := 1 - p.y * 1 / (t.getPixelsHigh : ℚ) * e.contentScaleFactor }

/-- The method `calculateTextureCoordinates`. With `_verticesCount = 0` neither loop body runs
and no pointer is read; otherwise `_texture` and both arrays are dereferenced. -/
def calculateTextureCoordinates (e : Engine) (s : FilledPolygon) : Option FilledPolygon :=
  if s._verticesCount = 0 then some s
  else
    match s._texture, s._positionTriangles, s._textureTriangles with
    | some t, some pos, some tex =>
      some { s with
        _textureTriangles :=
          some (assignLoop (textureCoordinate e t s._determineBounds s._origin)
            s._verticesCount pos tex) }
    | _, _, _ => none

/-- The method `setTexturePolygon`. The two `setVertexAttribPointer` calls hand the addresses
of the two arrays to the shader state, which `init` creates before its first call of this
method, and change nothing the class holds. -/
def setTexturePolygon (e : Engine) (s : FilledPolygon) (texturePolygon : List Vec2)
    (determineBounds : Bool) : Option FilledPolygon :=
  let s := { s with _determineBounds := determineBounds }
  let triangulatedVertices := e.Process texturePolygon
  let s := { s with _verticesCount := triangulatedVertices.length }
  let s := { s with _positionTriangles := some (List.replicate s._verticesCount Vec2.ZERO) }
  let s := { s with _textureTriangles := some (List.replicate s._verticesCount Vec2.ZERO) }
  let s :=
    if s._determineBounds then
      let bounds := triangulatedVertices.foldl boundsStep (⟨FLT_MAX, FLT_MAX⟩, Vec2.ZERO)
      let s := { s with _origin := bounds.1 }
      let _maxBound := bounds.2
      let s := s.setContentSize (Size.ofVec2 (_maxBound - s._origin))
      { s with
        _positionTriangles :=
          s._positionTriangles.map
            (assignLoop (fun v => v - s._origin) s._verticesCount triangulatedVertices) }
    else
      { s with
        _positionTriangles :=
          s._positionTriangles.map
            (assignLoop (fun v => v) s._verticesCount triangulatedVertices) }
  calculateTextureCoordinates e s

/-- The method `setTexture`. A null `texture` fails the `CCASSERT` (and, with assertions
compiled out, is dereferenced by `getPixelsWide`). -/
def setTexture (e : Engine) (s : FilledPolygon) (texture : Option Texture2D) :
    Option FilledPolygon :=
  if ptrNe s._texture texture then
    match texture with
    | none => none
    | some t =>
      let t :=
        if t.getPixelsWide = e.ccNextPOT t.getPixelsWide
            ∧ t.getPixelsHigh = e.ccNextPOT t.getPixelsHigh then
          t.setTexParameters ⟨GL_LINEAR, GL_LINEAR, GL_REPEAT, GL_REPEAT⟩
        else t
      let s := { s with _texture := some t }
      let s :=
        if !t.hasPremultipliedAlpha then
          { s with _blendFunc := ⟨GL_SRC_ALPHA, GL_ONE_MINUS_SRC_ALPHA⟩ }
        else
          { s with _blendFunc := ⟨e.CC_BLEND_SRC, e.CC_BLEND_DST⟩ }
      if s._textureTriangles.isSome then calculateTextureCoordinates e s else some s
  else some s

/-- The method `draw`. -/
def draw (s : FilledPolygon) (renderer : Renderer) (transform : Mat4) (flags : Nat) :
    FilledPolygon × Renderer :=
  if s._verticesCount ≤ 1 then (s, renderer)
  else
    let s := { s with _customCommand := { s._customCommand with globalOrder := s._globalZOrder } }
    let s := { s with _customCommand := { s._customCommand with func := some (transform, flags) } }
    (s, renderer.addCommand s._customCommand)

/-- The state the constructor leaves, for given values of the members it does not
initialise. -/
def new (blendFunc : BlendFunc) (customCommand : CustomCommand) (determineBounds : Bool)
    (contentSize : Size) (globalZOrder : ℚ) : FilledPolygon :=
  { _texture := none
    _blendFunc := blendFunc
    _customCommand := customCommand
    _verticesCount := 0
    _positionTriangles := none
    _textureTriangles := none
    _determineBounds := determineBounds
    _origin := Vec2.ZERO
    _contentSize := contentSize
    _globalZOrder := globalZOrder }

/-- The method `init`, as far as the members above go (`updateColor` and the shader state touch
none of them). -/
def init (e : Engine) (s : FilledPolygon) (texture : Option Texture2D)
    (texturePolygon : List Vec2) (determineBounds : Bool) : Option FilledPolygon :=
  (setTexture e s texture).bind fun s => setTexturePolygon e s texturePolygon determineBounds

/-- The primitive holds geometry: both arrays are allocated and have `_verticesCount`
entries, as `setTexturePolygon` leaves them. -/
def holdsGeometry (s : FilledPolygon) : Bool :=
  match s._positionTriangles, s._textureTriangles with
  | some P, some U => P.length == s._verticesCount && U.length == s._verticesCount
  | _, _ => false

/-- The states the class can be in: either it holds geometry, or both arrays are still null
and `_verticesCount` is 0, as the constructor leaves them. -/
def wellFormed (s : FilledPolygon) : Bool :=
  s.holdsGeometry
    || (s._positionTriangles.isNone && s._textureTriangles.isNone && s._verticesCount == 0)

/-- A run of `setTexture` calls, one for each texture of the list in turn. -/
def setTextures (e : Engine) (s : FilledPolygon) : List Texture2D → Option FilledPolygon
  | [] => some s
  | t :: ts => (setTexture e s (some t)).bind fun s1 => setTextures e s1 ts

end FilledPolygon

/-! ## Concrete values for evaluation -/

namespace Sample

/-- The engine's `ccNextPOT` on a 32-bit `int` of at most `2^30`: one is subtracted, the
highest set bit is smeared over all lower bits, one is added. For a positive `x` this is the
least power of two that is not smaller; for `x ≤ 0` the sign bit of `x - 1` is smeared over the
whole word, which is `-1`, and the result is `0`. -/
def nextPOT (x : Int) : Int :=
  if x ≤ 0 then 0
  else
    let x := (x - 1).toNat
    let x := x ||| (x >>> 1)
    let x := x ||| (x >>> 2)
    let x := x ||| (x >>> 4)
    let x := x ||| (x >>> 8)
    let x := x ||| (x >>> 16)
    ((x + 1 : Nat) : Int)

/-- An engine with content scale factor 1, the ear-clipping triangulator of section 4.1 and
the blend pair `(GL_ONE, GL_ONE_MINUS_SRC_ALPHA)`. -/
def engine : Engine :=
  { Process := Triangulate.triangulate Triangulate.Fallback.forceEmit
    contentScaleFactor := 1
    ccNextPOT := nextPOT
    CC_BLEND_SRC := 1
    CC_BLEND_DST := GL_ONE_MINUS_SRC_ALPHA }

/-- A 100 x 100 texture without premultiplied alpha. -/
def texture100 : Texture2D :=
  { addr := 1, pixelsWide := 100, pixelsHigh := 100, premultipliedAlpha := false,
    texParameters := none }

/-- A 200 x 50 texture with premultiplied alpha. -/
def texture200 : Texture2D :=
  { addr := 2, pixelsWide := 200, pixelsHigh := 50, premultipliedAlpha := true,
    texParameters := none }

/-- A freshly constructed primitive, before `init` sets its texture. -/
def fresh : FilledPolygon :=
  FilledPolygon.new ⟨0, 0⟩ ⟨0, none⟩ false ⟨0, 0⟩ 0

/-- A freshly constructed primitive after `setTexture(texture100)`. -/
def textured : FilledPolygon :=
  { fresh with
    _texture := some texture100
    _blendFunc := ⟨GL_SRC_ALPHA, GL_ONE_MINUS_SRC_ALPHA⟩ }

/-- The primitive `textured` after `setTexturePolygon(square, false)`. -/
def squarePrimitive : FilledPolygon :=
  { textured with
    _verticesCount := 6
    _positionTriangles := some [⟨0, 100⟩, ⟨0, 0⟩, ⟨100, 0⟩, ⟨100, 0⟩, ⟨100, 100⟩, ⟨0, 100⟩]
    _textureTriangles := some [⟨0, 0⟩, ⟨0, 1⟩, ⟨1, 1⟩, ⟨1, 1⟩, ⟨1, 0⟩, ⟨0, 0⟩] }

def square : List Vec2 := [⟨0, 0⟩, ⟨100, 0⟩, ⟨100, 100⟩, ⟨0, 100⟩]

def squareAt50 : List Vec2 := [⟨50, 50⟩, ⟨150, 50⟩, ⟨150, 150⟩, ⟨50, 150⟩]

def negativeTriangle : List Vec2 := [⟨-3, -3⟩, ⟨-1, -3⟩, ⟨-1, -1⟩]

end Sample

namespace FilledPolygon

/-! ## The loops -/

theorem assignLoop_upto (f : Vec2 → Vec2) (src dst : List Vec2) (h : src.length = dst.length) :
    ∀ k, k ≤ src.length →
      (List.range k).foldl (fun out i => out.set i (f (src.getD i Vec2.ZERO))) dst
        = (src.take k).map f ++ dst.drop k := by
  intro k
  induction k with
  | zero => intro _; simp
  | succ k ih =>
    intro hk
    have hk1 : k < src.length := hk
    have hk2 : k < dst.length := h ▸ hk1
    rw [List.range_succ, List.foldl_append, ih (Nat.le_of_lt hk1)]
    simp only [List.foldl_cons, List.foldl_nil]
    have hlen : ((src.take k).map f).length = k := by
      simp [List.length_take, Nat.min_eq_left (Nat.le_of_lt hk1)]
    rw [List.set_append, if_neg (by omega), hlen, Nat.sub_self]
    rw [List.drop_eq_getElem_cons hk2, List.set_cons_zero]
    rw [List.take_succ, List.map_append, List.append_assoc]
    congr 1
    simp [List.getD_eq_getElem?_getD, List.getElem?_eq_getElem hk1]

theorem assignLoop_eq_map (f : Vec2 → Vec2) (src dst : List Vec2)
    (h : src.length = dst.length) : assignLoop f src.length src dst = src.map f := by
  unfold assignLoop
  rw [assignLoop_upto f src dst h src.length (Nat.le_refl _)]
  simp [h]

/-! ## The bounds loop -/

theorem boundsStep_origin_x (acc : Vec2 × Vec2) (v : Vec2) :
    (boundsStep acc v).1.x = min v.x acc.1.x := by
  unfold boundsStep
  simp only
  split_ifs with h1 h2 <;> simp_all [min_def, not_lt, le_of_lt]

theorem boundsStep_origin_y (acc : Vec2 × Vec2) (v : Vec2) :
    (boundsStep acc v).1.y = min v.y acc.1.y := by
  unfold boundsStep
  simp only
  split_ifs with h1 h2 <;> simp_all [min_def, not_lt, le_of_lt]

theorem boundsStep_max_x (acc : Vec2 × Vec2) (v : Vec2) :
    (boundsStep acc v).2.x = max v.x acc.2.x := by
  unfold boundsStep
  simp only
  split_ifs with h1 h2 <;> simp_all [max_def, not_lt, le_of_lt]

theorem boundsStep_max_y (acc : Vec2 × Vec2) (v : Vec2) :
    (boundsStep acc v).2.y = max v.y acc.2.y := by
  unfold boundsStep
  simp only
  split_ifs with h1 h2 <;> simp_all [max_def, not_lt, le_of_lt]

theorem foldl_min_spec {α : Type} (g : Vec2 → ℚ) (step : α → Vec2 → α) (proj : α → ℚ)
    (hstep : ∀ a v, proj (step a v) = min (g v) (proj a)) :
    ∀ (T : List Vec2) (a : α),
      proj (T.foldl step a) ≤ proj a ∧ (∀ p ∈ T, proj (T.foldl step a) ≤ g p)
        ∧ (proj (T.foldl step a) = proj a ∨ ∃ p ∈ T, g p = proj (T.foldl step a)) := by
  intro T
  induction T with
  | nil => intro a; simp
  | cons v T ih =>
    intro a
    obtain ⟨h1, h2, h3⟩ := ih (step a v)
    rw [hstep] at h1 h3
    simp only [List.foldl_cons, List.mem_cons, forall_eq_or_imp, exists_eq_or_imp]
    refine ⟨le_trans h1 (min_le_right _ _), ⟨le_trans h1 (min_le_left _ _), h2⟩, ?_⟩
    rcases h3 with h3 | h3
    · rcases min_choice (g v) (proj a) with hm | hm
      · right; left; rw [h3, hm]
      · left; rw [h3, hm]
    · right; right; exact h3

theorem foldl_max_spec {α : Type} (g : Vec2 → ℚ) (step : α → Vec2 → α) (proj : α → ℚ)
    (hstep : ∀ a v, proj (step a v) = max (g v) (proj a)) :
    ∀ (T : List Vec2) (a : α),
      proj a ≤ proj (T.foldl step a) ∧ (∀ p ∈ T, g p ≤ proj (T.foldl step a))
        ∧ (proj (T.foldl step a) = proj a ∨ ∃ p ∈ T, g p = proj (T.foldl step a)) := by
  intro T
  induction T with
  | nil => intro a; simp
  | cons v T ih =>
    intro a
    obtain ⟨h1, h2, h3⟩ := ih (step a v)
    rw [hstep] at h1 h3
    simp only [List.foldl_cons, List.mem_cons, forall_eq_or_imp, exists_eq_or_imp]
    refine ⟨le_trans (le_max_right _ _) h1, ⟨le_trans (le_max_left _ _) h1, h2⟩, ?_⟩
    rcases h3 with h3 | h3
    · rcases max_choice (g v) (proj a) with hm | hm
      · right; left; rw [h3, hm]
      · left; rw [h3, hm]
    · right; right; exact h3

/-- The origin the bounds loop computes is a lower bound of the vertices, and the maximal
corner an upper bound. -/
theorem bounds_enclose (T : List Vec2) (acc : Vec2 × Vec2) (p : Vec2) (hp : p ∈ T) :
    (T.foldl boundsStep acc).1.x ≤ p.x ∧ (T.foldl boundsStep acc).1.y ≤ p.y
      ∧ p.x ≤ (T.foldl boundsStep acc).2.x ∧ p.y ≤ (T.foldl boundsStep acc).2.y :=
  ⟨(foldl_min_spec Vec2.x boundsStep (fun a => a.1.x) boundsStep_origin_x T acc).2.1 p hp,
   (foldl_min_spec Vec2.y boundsStep (fun a => a.1.y) boundsStep_origin_y T acc).2.1 p hp,
   (foldl_max_spec Vec2.x boundsStep (fun a => a.2.x) boundsStep_max_x T acc).2.1 p hp,
   (foldl_max_spec Vec2.y boundsStep (fun a => a.2.y) boundsStep_max_y T acc).2.1 p hp⟩

/-- Started at `FLT_MAX`, the bounds loop ends with the least `x` of the vertices when there is
a vertex and none exceeds `FLT_MAX`. -/
theorem bounds_origin_x_attained (T : List Vec2) (m : Vec2) (hne : T ≠ [])
    (hr : ∀ p ∈ T, p.x ≤ FLT_MAX) :
    ∃ p ∈ T, p.x = (T.foldl boundsStep (⟨FLT_MAX, FLT_MAX⟩, m)).1.x := by
  obtain ⟨_, h2, h3⟩ :=
    foldl_min_spec Vec2.x boundsStep (fun a => a.1.x) boundsStep_origin_x T (⟨FLT_MAX, FLT_MAX⟩, m)
  rcases h3 with h3 | h3
  · obtain ⟨q, hq⟩ := List.exists_mem_of_ne_nil T hne
    refine ⟨q, hq, le_antisymm ?_ (h2 q hq)⟩
    simp only at h3
    rw [h3]
    exact hr q hq
  · exact h3

theorem bounds_origin_y_attained (T : List Vec2) (m : Vec2) (hne : T ≠ [])
    (hr : ∀ p ∈ T, p.y ≤ FLT_MAX) :
    ∃ p ∈ T, p.y = (T.foldl boundsStep (⟨FLT_MAX, FLT_MAX⟩, m)).1.y := by
  obtain ⟨_, h2, h3⟩ :=
    foldl_min_spec Vec2.y boundsStep (fun a => a.1.y) boundsStep_origin_y T (⟨FLT_MAX, FLT_MAX⟩, m)
  rcases h3 with h3 | h3
  · obtain ⟨q, hq⟩ := List.exists_mem_of_ne_nil T hne
    refine ⟨q, hq, le_antisymm ?_ (h2 q hq)⟩
    simp only at h3
    rw [h3]
    exact hr q hq
  · exact h3

/-! ## The state after `setTexturePolygon` and `setTexture` -/

theorem assignLoop_map (f : Vec2 → Vec2) (n : Nat) (src dst : List Vec2)
    (hs : src.length = n) (hd : dst.length = n) : assignLoop f n src dst = src.map f := by
  subst hs
  exact assignLoop_eq_map f src dst hd.symm

/-- What `calculateTextureCoordinates` does on a state that holds a texture and two arrays
of `_verticesCount` entries. -/
theorem calculateTextureCoordinates_eq (e : Engine) (s : FilledPolygon) (t : Texture2D)
    (P U : List Vec2) (ht : s._texture = some t) (hP : s._positionTriangles = some P)
    (hU : s._textureTriangles = some U) (hPl : P.length = s._verticesCount)
    (hUl : U.length = s._verticesCount) :
    calculateTextureCoordinates e s
      = some { s with
          _textureTriangles :=
            some (P.map (textureCoordinate e t s._determineBounds s._origin)) } := by
  unfold calculateTextureCoordinates
  by_cases h0 : s._verticesCount = 0
  · have hP0 : P = [] := List.length_eq_zero.mp (hPl.trans h0)
    have hU0 : U = [] := List.length_eq_zero.mp (hUl.trans h0)
    subst hP0 hU0
    rw [if_pos h0]
    cases s
    simp_all
  · rw [if_neg h0, ht, hP, hU]
    simp only
    rw [assignLoop_map _ _ P U hPl hUl]

/-- The state `setTexturePolygon` leaves with `determineBounds = false`. -/
theorem setTexturePolygon_false_eq (e : Engine) (s : FilledPolygon) (t : Texture2D)
    (outline : List Vec2) (ht : s._texture = some t) :
    setTexturePolygon e s outline false
      = some { s with
          _determineBounds := false
          _verticesCount := (e.Process outline).length
          _positionTriangles := some (e.Process outline)
          _textureTriangles :=
            some ((e.Process outline).map (textureCoordinate e t false s._origin)) } := by
  unfold setTexturePolygon
  simp only [Bool.false_eq_true, if_false, Option.map_some']
  rw [assignLoop_map _ _ _ _ rfl (List.length_replicate _ _)]
  refine (calculateTextureCoordinates_eq e _ t (List.map (fun v => v) (e.Process outline))
    (List.replicate (e.Process outline).length Vec2.ZERO) (by exact ht) rfl rfl (by simp) (by simp)).trans ?_
  simp

/-- The state `setTexturePolygon` leaves with `determineBounds = true`. -/
theorem setTexturePolygon_true_eq (e : Engine) (s : FilledPolygon) (t : Texture2D)
    (outline : List Vec2) (ht : s._texture = some t) :
    setTexturePolygon e s outline true
      = some { s with
          _determineBounds := true
          _verticesCount := (e.Process outline).length
          _origin := ((e.Process outline).foldl boundsStep (⟨FLT_MAX, FLT_MAX⟩, Vec2.ZERO)).1
          _contentSize :=
            Size.ofVec2
              (((e.Process outline).foldl boundsStep (⟨FLT_MAX, FLT_MAX⟩, Vec2.ZERO)).2
                - ((e.Process outline).foldl boundsStep (⟨FLT_MAX, FLT_MAX⟩, Vec2.ZERO)).1)
          _positionTriangles :=
            some ((e.Process outline).map fun v =>
              v - ((e.Process outline).foldl boundsStep (⟨FLT_MAX, FLT_MAX⟩, Vec2.ZERO)).1)
          _textureTriangles :=
            some (((e.Process outline).map fun v =>
              v - ((e.Process outline).foldl boundsStep (⟨FLT_MAX, FLT_MAX⟩, Vec2.ZERO)).1).map
                (textureCoordinate e t true
                  ((e.Process outline).foldl boundsStep (⟨FLT_MAX, FLT_MAX⟩, Vec2.ZERO)).1)) } := by
  unfold setTexturePolygon
  simp only [if_true, Option.map_some', setContentSize]
  rw [assignLoop_map _ _ _ _ rfl (List.length_replicate _ _)]
  exact calculateTextureCoordinates_eq e _ t _
    (List.replicate (e.Process outline).length Vec2.ZERO) (by exact ht) rfl rfl (by simp) (by simp)

/-- With an empty triangle list `setTexturePolygon` returns whatever `_texture` is. -/
theorem setTexturePolygon_empty (e : Engine) (s : FilledPolygon) (outline : List Vec2)
    (determineBounds : Bool) (hT : e.Process outline = []) :
    ∃ s1, setTexturePolygon e s outline determineBounds = some s1 ∧ s1._verticesCount = 0
      ∧ s1._positionTriangles = some [] ∧ s1._textureTriangles = some [] := by
  unfold setTexturePolygon calculateTextureCoordinates
  cases determineBounds <;> simp [hT, assignLoop, setContentSize]

theorem textureCoordinate_congr (e : Engine) (t t1 : Texture2D) (determineBounds : Bool)
    (origin : Vec2) (hw : t1.pixelsWide = t.pixelsWide) (hh : t1.pixelsHigh = t.pixelsHigh) :
    textureCoordinate e t1 determineBounds origin = textureCoordinate e t determineBounds origin := by
  funext p
  simp [textureCoordinate, Texture2D.getPixelsWide, Texture2D.getPixelsHigh, hw, hh]

/-- The guard of `setTexture`: the texture already held changes nothing. -/
theorem setTexture_same (e : Engine) (s : FilledPolygon) (texture : Option Texture2D)
    (h : ptrNe s._texture texture = false) : setTexture e s texture = some s := by
  unfold setTexture
  simp [h]

/-- The state `setTexture` leaves for a texture other than the one held, on a primitive that
holds geometry. -/
theorem setTexture_changed (e : Engine) (s : FilledPolygon) (t : Texture2D) (P U : List Vec2)
    (hne : ptrNe s._texture (some t) = true) (hP : s._positionTriangles = some P)
    (hU : s._textureTriangles = some U) (hPl : P.length = s._verticesCount)
    (hUl : U.length = s._verticesCount) :
    ∃ t1 : Texture2D, t1.addr = t.addr ∧ t1.pixelsWide = t.pixelsWide
      ∧ t1.pixelsHigh = t.pixelsHigh ∧ t1.premultipliedAlpha = t.premultipliedAlpha
      ∧ setTexture e s (some t)
        = some { s with
            _texture := some t1
            _blendFunc :=
              if t.premultipliedAlpha then ⟨e.CC_BLEND_SRC, e.CC_BLEND_DST⟩
              else ⟨GL_SRC_ALPHA, GL_ONE_MINUS_SRC_ALPHA⟩
            _textureTriangles :=
              some (P.map (textureCoordinate e t s._determineBounds s._origin)) } := by
  refine ⟨if t.getPixelsWide = e.ccNextPOT t.getPixelsWide
            ∧ t.getPixelsHigh = e.ccNextPOT t.getPixelsHigh then
          t.setTexParameters ⟨GL_LINEAR, GL_LINEAR, GL_REPEAT, GL_REPEAT⟩
        else t, ?_, ?_, ?_, ?_, ?_⟩
  · split_ifs <;> rfl
  · split_ifs <;> rfl
  · split_ifs <;> rfl
  · split_ifs <;> rfl
  · unfold setTexture
    rw [if_pos hne]
    simp only [hU, Option.isSome_some, if_true]
    rw [← textureCoordinate_congr e t
      (if t.getPixelsWide = e.ccNextPOT t.getPixelsWide
            ∧ t.getPixelsHigh = e.ccNextPOT t.getPixelsHigh then
          t.setTexParameters ⟨GL_LINEAR, GL_LINEAR, GL_REPEAT, GL_REPEAT⟩
        else t) s._determineBounds s._origin (by split_ifs <;> rfl) (by split_ifs <;> rfl)]
    have hprem : Texture2D.hasPremultipliedAlpha
        (if t.getPixelsWide = e.ccNextPOT t.getPixelsWide
            ∧ t.getPixelsHigh = e.ccNextPOT t.getPixelsHigh then
          t.setTexParameters ⟨GL_LINEAR, GL_LINEAR, GL_REPEAT, GL_REPEAT⟩
        else t) = t.premultipliedAlpha := by split_ifs <;> rfl
    rw [hprem]
    cases hpa : t.premultipliedAlpha
    · simp only [Bool.not_false, Bool.not_true, if_true, Bool.false_eq_true, if_false]
      refine (calculateTextureCoordinates_eq e _ _ P U rfl (by exact hP) rfl
        (by exact hPl) (by exact hUl)).trans ?_
      simp
    · simp only [Bool.not_false, Bool.not_true, if_true, Bool.false_eq_true, if_false]
      refine (calculateTextureCoordinates_eq e _ _ P U rfl (by exact hP) rfl
        (by exact hPl) (by exact hUl)).trans ?_
      simp

/-- The state `setTexture` leaves for a texture other than the one held, on a primitive
whose arrays are still null. -/
theorem setTexture_changed_fresh (e : Engine) (s : FilledPolygon) (t : Texture2D)
    (hne : ptrNe s._texture (some t) = true) (hU : s._textureTriangles = none) :
    ∃ t1 : Texture2D, t1.addr = t.addr ∧ t1.pixelsWide = t.pixelsWide
      ∧ t1.pixelsHigh = t.pixelsHigh ∧ t1.premultipliedAlpha = t.premultipliedAlpha
      ∧ setTexture e s (some t)
        = some { s with
            _texture := some t1
            _blendFunc :=
              if t.premultipliedAlpha then ⟨e.CC_BLEND_SRC, e.CC_BLEND_DST⟩
              else ⟨GL_SRC_ALPHA, GL_ONE_MINUS_SRC_ALPHA⟩ } := by
  refine ⟨if t.getPixelsWide = e.ccNextPOT t.getPixelsWide
            ∧ t.getPixelsHigh = e.ccNextPOT t.getPixelsHigh then
          t.setTexParameters ⟨GL_LINEAR, GL_LINEAR, GL_REPEAT, GL_REPEAT⟩
        else t, ?_, ?_, ?_, ?_, ?_⟩
  · split_ifs <;> rfl
  · split_ifs <;> rfl
  · split_ifs <;> rfl
  · split_ifs <;> rfl
  · unfold setTexture
    rw [if_pos hne]
    have hprem : Texture2D.hasPremultipliedAlpha
        (if t.getPixelsWide = e.ccNextPOT t.getPixelsWide
            ∧ t.getPixelsHigh = e.ccNextPOT t.getPixelsHigh then
          t.setTexParameters ⟨GL_LINEAR, GL_LINEAR, GL_REPEAT, GL_REPEAT⟩
        else t) = t.premultipliedAlpha := by split_ifs <;> rfl
    simp only [hprem]
    cases hpa : t.premultipliedAlpha <;> simp [hU]

/-- The members `setTexture` never writes, and the shape of the texture-coordinate array
after it. -/
theorem setTexture_frame (e : Engine) (s : FilledPolygon) (t : Texture2D) (P U : List Vec2)
    (hP : s._positionTriangles = some P) (hU : s._textureTriangles = some U)
    (hPl : P.length = s._verticesCount) (hUl : U.length = s._verticesCount) :
    ∃ s1 U1, setTexture e s (some t) = some s1 ∧ s1._positionTriangles = some P
      ∧ s1._textureTriangles = some U1 ∧ U1.length = s1._verticesCount
      ∧ s1._verticesCount = s._verticesCount ∧ s1._determineBounds = s._determineBounds
      ∧ s1._origin = s._origin ∧ s1._contentSize = s._contentSize := by
  cases hne : ptrNe s._texture (some t)
  · exact ⟨s, U, setTexture_same e s _ hne, hP, hU, hUl, rfl, rfl, rfl, rfl⟩
  · obtain ⟨t1, _, _, _, _, h⟩ := setTexture_changed e s t P U hne hP hU hPl hUl
    exact ⟨_, _, h, hP, rfl, by simpa using hPl, rfl, rfl, rfl, rfl⟩

end FilledPolygon

namespace Triangulate

/-! ## The triangulator on short outlines -/

/-- Fewer than three points give no triangle. -/
theorem triangulate_short (fb : Fallback) (outline : List Vec2) (h : outline.length ≤ 2) :
    triangulate fb outline = [] := by
  unfold triangulate
  rw [if_pos (by omega)]

end Triangulate

namespace FilledPolygon

/-! ## The states the class can be in -/

theorem holdsGeometry_iff (s : FilledPolygon) :
    s.holdsGeometry = true ↔
      ∃ P U, s._positionTriangles = some P ∧ s._textureTriangles = some U
        ∧ P.length = s._verticesCount ∧ U.length = s._verticesCount := by
  unfold holdsGeometry
  cases hP : s._positionTriangles <;> cases hU : s._textureTriangles <;> simp

/-- The constructor leaves a well-formed state. -/
theorem wellFormed_new (blendFunc : BlendFunc) (customCommand : CustomCommand)
    (determineBounds : Bool) (contentSize : Size) (globalZOrder : ℚ) :
    (FilledPolygon.new blendFunc customCommand determineBounds contentSize globalZOrder).wellFormed
      = true := by
  rfl

/-- Whenever `setTexturePolygon` returns, the primitive holds geometry. -/
theorem holdsGeometry_setTexturePolygon (e : Engine) (s s1 : FilledPolygon)
    (outline : List Vec2) (determineBounds : Bool)
    (h : setTexturePolygon e s outline determineBounds = some s1) :
    s1.holdsGeometry = true := by
  rw [holdsGeometry_iff]
  cases ht : s._texture with
  | some t =>
    cases determineBounds
    · rw [setTexturePolygon_false_eq e s t outline ht] at h
      cases h
      exact ⟨_, _, rfl, rfl, rfl, by simp⟩
    · rw [setTexturePolygon_true_eq e s t outline ht] at h
      cases h
      exact ⟨_, _, rfl, rfl, by simp, by simp⟩
  | none =>
    by_cases hT : e.Process outline = []
    · obtain ⟨s2, h2, hc, hP, hU⟩ := setTexturePolygon_empty e s outline determineBounds hT
      rw [h2] at h
      cases h
      exact ⟨[], [], hP, hU, by simp [hc], by simp [hc]⟩
    · exfalso
      unfold setTexturePolygon calculateTextureCoordinates at h
      cases determineBounds <;> simp [ht, hT, setContentSize] at h

/-- Whenever `setTexture` returns on a well-formed state, the state it leaves is
well-formed. -/
theorem wellFormed_setTexture (e : Engine) (s s1 : FilledPolygon) (texture : Option Texture2D)
    (hwf : s.wellFormed = true) (h : setTexture e s texture = some s1) :
    s1.wellFormed = true := by
  cases hne : ptrNe s._texture texture with
  | false =>
    rw [setTexture_same e s texture hne] at h
    cases h
    exact hwf
  | true =>
    cases texture with
    | none => simp [setTexture, hne] at h
    | some t =>
      unfold wellFormed at hwf
      rw [Bool.or_eq_true] at hwf
      rcases hwf with hg | hn
      · obtain ⟨P, U, hP, hU, hPl, hUl⟩ := (holdsGeometry_iff s).mp hg
        obtain ⟨t1, _, _, _, _, h1⟩ := setTexture_changed e s t P U hne hP hU hPl hUl
        rw [h1] at h
        cases h
        unfold wellFormed
        rw [Bool.or_eq_true]
        left
        rw [holdsGeometry_iff]
        exact ⟨P, _, hP, rfl, hPl, by simpa using hPl⟩
      · simp only [Bool.and_eq_true, Option.isNone_iff_eq_none, beq_iff_eq] at hn
        obtain ⟨⟨hP, hU⟩, hc⟩ := hn
        obtain ⟨t1, _, _, _, _, h1⟩ := setTexture_changed_fresh e s t hne hU
        rw [h1] at h
        cases h
        simp [wellFormed, hP, hU, hc]

theorem squarePrimitive_reached :
    setTexturePolygon Sample.engine Sample.textured Sample.square false
      = some Sample.squarePrimitive := by
  decide!

theorem textured_reached :
    setTexture Sample.engine Sample.fresh (some Sample.texture100) = some Sample.textured := by
  decide!

end FilledPolygon

open FilledPolygon

/-! ## The claims -/

/-- C1: for every outline, every texture of positive pixel width `w` and height `h` and every
content scale factor `s`, `setTexturePolygon(outline, false)` on a primitive holding that texture
stores the triangulator's output `T` unchanged as the position list, and the texture coordinate
stored at every index `i` is `(T[i].x / w * s, 1 - T[i].y / h * s)`. -/
theorem setTexturePolygon_false_positions_and_uv (e : Engine) (s : FilledPolygon)
    (t : Texture2D) (outline : List Vec2) (ht : s._texture = some t)
    (_hw : 0 < t.getPixelsWide) (_hh : 0 < t.getPixelsHigh) :
    ∃ s1 U, setTexturePolygon e s outline false = some s1
      ∧ s1._positionTriangles = some (e.Process outline)
      ∧ s1._verticesCount = (e.Process outline).length
      ∧ s1._textureTriangles = some U ∧ U.length = (e.Process outline).length
      ∧ ∀ (i : Nat) (hi : i < (e.Process outline).length) (hu : i < U.length),
          U[i] = ⟨(e.Process outline)[i].x / (t.getPixelsWide : ℚ) * e.contentScaleFactor,
            1 - (e.Process outline)[i].y / (t.getPixelsHigh : ℚ) * e.contentScaleFactor⟩ := by
  rw [setTexturePolygon_false_eq e s t outline ht]
  refine ⟨_, _, rfl, rfl, rfl, rfl, by simp, ?_⟩
  intro i hi hu
  simp [textureCoordinate]

/-- C1, evaluated: the square `[(0,0),(100,0),(100,100),(0,100)]` with a 100 x 100 texture and
scale 1. The triangle list holds `(0,0)` at index 1 and `(100,100)` at index 4, and the stored
texture coordinates there are `(0,1)` and `(1,0)`. -/
theorem setTexturePolygon_false_square :
    (Sample.textured._texture = some Sample.texture100
      ∧ 0 < Sample.texture100.getPixelsWide ∧ 0 < Sample.texture100.getPixelsHigh)
    ∧ (∃ s1 U, setTexturePolygon Sample.engine Sample.textured Sample.square false = some s1
      ∧ s1._positionTriangles = some (Sample.engine.Process Sample.square)
      ∧ s1._verticesCount = (Sample.engine.Process Sample.square).length
      ∧ s1._textureTriangles = some U ∧ U.length = (Sample.engine.Process Sample.square).length
      ∧ ∀ (i : Nat) (hi : i < (Sample.engine.Process Sample.square).length) (hu : i < U.length),
          U[i] = ⟨(Sample.engine.Process Sample.square)[i].x
                / (Sample.texture100.getPixelsWide : ℚ) * Sample.engine.contentScaleFactor,
            1 - (Sample.engine.Process Sample.square)[i].y
                / (Sample.texture100.getPixelsHigh : ℚ) * Sample.engine.contentScaleFactor⟩)
    ∧ Sample.engine.Process Sample.square
        = [⟨0, 100⟩, ⟨0, 0⟩, ⟨100, 0⟩, ⟨100, 0⟩, ⟨100, 100⟩, ⟨0, 100⟩]
    ∧ (setTexturePolygon Sample.engine Sample.textured Sample.square false).map
          (fun s1 => s1._textureTriangles)
        = some (some [⟨0, 0⟩, ⟨0, 1⟩, ⟨1, 1⟩, ⟨1, 1⟩, ⟨1, 0⟩, ⟨0, 0⟩]) :=
  ⟨⟨rfl, by decide, by decide⟩,
    setTexturePolygon_false_positions_and_uv Sample.engine Sample.textured Sample.texture100
      Sample.square rfl (by decide) (by decide),
    by decide!, by decide!⟩

/-- C3: for every outline whose triangle list `T` is not empty (its coordinates being `float`
values, so at most `FLT_MAX`), after `setTexturePolygon(outline, true)` the `x` and the `y` of
`getBoundsOrigin()` are the least `x` and the least `y` over the points of `T`, and the position
stored at every index `i` is `T[i] - origin`. -/
theorem setTexturePolygon_true_origin_and_positions (e : Engine) (s : FilledPolygon)
    (t : Texture2D) (outline : List Vec2) (ht : s._texture = some t)
    (hne : e.Process outline ≠ [])
    (hr : ∀ p ∈ e.Process outline, p.x ≤ FLT_MAX ∧ p.y ≤ FLT_MAX) :
    ∃ s1 P, setTexturePolygon e s outline true = some s1
      ∧ (∃ p ∈ e.Process outline, p.x = s1.getBoundsOrigin.x)
      ∧ (∀ p ∈ e.Process outline, s1.getBoundsOrigin.x ≤ p.x)
      ∧ (∃ p ∈ e.Process outline, p.y = s1.getBoundsOrigin.y)
      ∧ (∀ p ∈ e.Process outline, s1.getBoundsOrigin.y ≤ p.y)
      ∧ s1._positionTriangles = some P ∧ P.length = (e.Process outline).length
      ∧ ∀ (i : Nat) (hi : i < (e.Process outline).length) (hp : i < P.length),
          P[i] = (e.Process outline)[i] - s1.getBoundsOrigin := by
  rw [setTexturePolygon_true_eq e s t outline ht]
  refine ⟨_, _, rfl, ?_, ?_, ?_, ?_, rfl, by simp, ?_⟩
  · exact bounds_origin_x_attained _ _ hne fun p hp => (hr p hp).1
  · exact fun p hp => (bounds_enclose _ _ p hp).1
  · exact bounds_origin_y_attained _ _ hne fun p hp => (hr p hp).2
  · exact fun p hp => (bounds_enclose _ _ p hp).2.1
  · intro i hi hp
    simp [getBoundsOrigin]

/-- C3, evaluated: the outline `[(50,50),(150,50),(150,150),(50,150)]` gives the origin
`(50,50)`; the triangle list holds `(50,50)` at index 1 and the position stored there is
`(0,0)`. -/
theorem setTexturePolygon_true_squareAt50 :
    (Sample.textured._texture = some Sample.texture100
      ∧ Sample.engine.Process Sample.squareAt50 ≠ []
      ∧ ∀ p ∈ Sample.engine.Process Sample.squareAt50, p.x ≤ FLT_MAX ∧ p.y ≤ FLT_MAX)
    ∧ (∃ s1 P, setTexturePolygon Sample.engine Sample.textured Sample.squareAt50 true = some s1
      ∧ (∃ p ∈ Sample.engine.Process Sample.squareAt50, p.x = s1.getBoundsOrigin.x)
      ∧ (∀ p ∈ Sample.engine.Process Sample.squareAt50, s1.getBoundsOrigin.x ≤ p.x)
      ∧ (∃ p ∈ Sample.engine.Process Sample.squareAt50, p.y = s1.getBoundsOrigin.y)
      ∧ (∀ p ∈ Sample.engine.Process Sample.squareAt50, s1.getBoundsOrigin.y ≤ p.y)
      ∧ s1._positionTriangles = some P
      ∧ P.length = (Sample.engine.Process Sample.squareAt50).length
      ∧ ∀ (i : Nat) (hi : i < (Sample.engine.Process Sample.squareAt50).length)
          (hp : i < P.length),
          P[i] = (Sample.engine.Process Sample.squareAt50)[i] - s1.getBoundsOrigin)
    ∧ Sample.engine.Process Sample.squareAt50
        = [⟨50, 150⟩, ⟨50, 50⟩, ⟨150, 50⟩, ⟨150, 50⟩, ⟨150, 150⟩, ⟨50, 150⟩]
    ∧ (setTexturePolygon Sample.engine Sample.textured Sample.squareAt50 true).map
          (fun s1 => (s1.getBoundsOrigin, s1._positionTriangles))
        = some (⟨50, 50⟩,
            some [⟨0, 100⟩, ⟨0, 0⟩, ⟨100, 0⟩, ⟨100, 0⟩, ⟨100, 100⟩, ⟨0, 100⟩]) :=
  ⟨⟨rfl, by decide!, by decide!⟩,
    setTexturePolygon_true_origin_and_positions Sample.engine Sample.textured Sample.texture100
      Sample.squareAt50 rfl (by decide!) (by decide!),
    by decide!, by decide!⟩

/-- C4, at a triangle whose coordinates are all negative: the triangle list of the outline
`[(-3,-3),(-1,-3),(-1,-1)]` is the outline itself, its bounding box reaches from `(-3,-3)` to
`(-1,-1)` and measures 2 x 2, and `setTexturePolygon(outline, true)` reports the origin
`(-3,-3)` and the content size `(3,3)`: the maximal corner never falls below its initial value
`Vec2::ZERO`. -/
theorem setTexturePolygon_true_contentSize_negativeTriangle :
    Sample.engine.Process Sample.negativeTriangle = [⟨-3, -3⟩, ⟨-1, -3⟩, ⟨-1, -1⟩]
    ∧ (setTexturePolygon Sample.engine Sample.textured Sample.negativeTriangle true).map
          (fun s1 => (s1.getBoundsOrigin, s1.getContentSize))
        = some (⟨-3, -3⟩, ⟨3, 3⟩) := by
  decide!

/-- C5: with `determineBounds = true` the texture coordinate stored at every index `i` is
`(T[i].x / w * s, 1 - T[i].y / h * s)` for the untranslated triangle list `T`, and the whole
list equals the one `setTexturePolygon(outline, false)` stores. -/
theorem setTexturePolygon_true_uv_from_original (e : Engine) (s : FilledPolygon)
    (t : Texture2D) (outline : List Vec2) (ht : s._texture = some t)
    (_hw : 0 < t.getPixelsWide) (_hh : 0 < t.getPixelsHigh) :
    ∃ s1 s2 U, setTexturePolygon e s outline true = some s1
      ∧ setTexturePolygon e s outline false = some s2
      ∧ s1._textureTriangles = some U ∧ s2._textureTriangles = some U
      ∧ U.length = (e.Process outline).length
      ∧ ∀ (i : Nat) (hi : i < (e.Process outline).length) (hu : i < U.length),
          U[i] = ⟨(e.Process outline)[i].x / (t.getPixelsWide : ℚ) * e.contentScaleFactor,
            1 - (e.Process outline)[i].y / (t.getPixelsHigh : ℚ) * e.contentScaleFactor⟩ := by
  rw [setTexturePolygon_true_eq e s t outline ht, setTexturePolygon_false_eq e s t outline ht]
  refine ⟨_, _, _, rfl, rfl, rfl, ?_, by simp, ?_⟩
  · simp only [List.map_map, Option.some.injEq]
    apply List.map_congr_left
    intro p _
    show textureCoordinate e t false s._origin p = textureCoordinate e t true _ (p - _)
    have hx : ∀ a b : Vec2, (a - b).x = a.x - b.x := fun _ _ => rfl
    have hy : ∀ a b : Vec2, (a - b).y = a.y - b.y := fun _ _ => rfl
    simp [textureCoordinate, hx, hy]
  · intro i hi hu
    have hx : ∀ a b : Vec2, (a - b).x = a.x - b.x := fun _ _ => rfl
    have hy : ∀ a b : Vec2, (a - b).y = a.y - b.y := fun _ _ => rfl
    simp [textureCoordinate, hx, hy]

/-- C5, evaluated: on the outline `[(50,50),(150,50),(150,150),(50,150)]` with a 100 x 100
texture and scale 1 both flag values store the same texture coordinates, computed from the
untranslated points. -/
theorem setTexturePolygon_true_uv_squareAt50 :
    (Sample.textured._texture = some Sample.texture100
      ∧ 0 < Sample.texture100.getPixelsWide ∧ 0 < Sample.texture100.getPixelsHigh)
    ∧ (∃ s1 s2 U, setTexturePolygon Sample.engine Sample.textured Sample.squareAt50 true = some s1
      ∧ setTexturePolygon Sample.engine Sample.textured Sample.squareAt50 false = some s2
      ∧ s1._textureTriangles = some U ∧ s2._textureTriangles = some U
      ∧ U.length = (Sample.engine.Process Sample.squareAt50).length
      ∧ ∀ (i : Nat) (hi : i < (Sample.engine.Process Sample.squareAt50).length)
          (hu : i < U.length),
          U[i] = ⟨(Sample.engine.Process Sample.squareAt50)[i].x
                / (Sample.texture100.getPixelsWide : ℚ) * Sample.engine.contentScaleFactor,
            1 - (Sample.engine.Process Sample.squareAt50)[i].y
                / (Sample.texture100.getPixelsHigh : ℚ) * Sample.engine.contentScaleFactor⟩)
    ∧ (setTexturePolygon Sample.engine Sample.textured Sample.squareAt50 true).map
          (fun s1 => s1._textureTriangles)
        = some (some [⟨1/2, -1/2⟩, ⟨1/2, 1/2⟩, ⟨3/2, 1/2⟩, ⟨3/2, 1/2⟩, ⟨3/2, -1/2⟩,
            ⟨1/2, -1/2⟩]) :=
  ⟨⟨rfl, by decide, by decide⟩,
    setTexturePolygon_true_uv_from_original Sample.engine Sample.textured Sample.texture100
      Sample.squareAt50 rfl (by decide) (by decide),
    by decide!⟩

/-- A run of `setTexture` calls on a primitive that holds geometry succeeds and leaves the
positions, the flag and the content size as they were. -/
theorem setTextures_frame (e : Engine) (ts : List Texture2D) :
    ∀ (s : FilledPolygon) (P U : List Vec2), s._positionTriangles = some P →
      s._textureTriangles = some U → P.length = s._verticesCount →
      U.length = s._verticesCount →
      ∃ s2, setTextures e s ts = some s2 ∧ s2._positionTriangles = some P
        ∧ s2._determineBounds = s._determineBounds ∧ s2._contentSize = s._contentSize := by
  induction ts with
  | nil => intro s P U hP _ _ _; exact ⟨s, rfl, hP, rfl, rfl⟩
  | cons t ts ih =>
    intro s P U hP hU hPl hUl
    obtain ⟨s1, U1, h1, hP1, hU1, hUl1, hc, hd, _, hs⟩ := setTexture_frame e s t P U hP hU hPl hUl
    obtain ⟨s2, h2, hP2, hd2, hs2⟩ := ih s1 P U1 hP1 hU1 (hPl.trans hc.symm) hUl1
    refine ⟨s2, ?_, hP2, hd2.trans hd, hs2.trans hs⟩
    simp [setTextures, h1, h2]

/-- What later calls rely on after `setTexturePolygon(outline, false)`. -/
theorem setTexturePolygon_false_summary (e : Engine) (s : FilledPolygon) (t : Texture2D)
    (outline : List Vec2) (ht : s._texture = some t) :
    ∃ s1 U, setTexturePolygon e s outline false = some s1
      ∧ s1._positionTriangles = some (e.Process outline) ∧ s1._textureTriangles = some U
      ∧ (e.Process outline).length = s1._verticesCount ∧ U.length = s1._verticesCount
      ∧ s1._determineBounds = false := by
  rw [setTexturePolygon_false_eq e s t outline ht]
  exact ⟨_, _, rfl, rfl, rfl, rfl, by simp, rfl⟩

/-- What later calls rely on after `setTexturePolygon(outline, true)`. -/
theorem setTexturePolygon_true_summary (e : Engine) (s : FilledPolygon) (t : Texture2D)
    (outline : List Vec2) (ht : s._texture = some t) :
    ∃ s1 P U, setTexturePolygon e s outline true = some s1
      ∧ P = (e.Process outline).map (fun v =>
          v - ((e.Process outline).foldl boundsStep (⟨FLT_MAX, FLT_MAX⟩, Vec2.ZERO)).1)
      ∧ s1._positionTriangles = some P ∧ s1._textureTriangles = some U
      ∧ P.length = s1._verticesCount ∧ U.length = s1._verticesCount
      ∧ s1._determineBounds = true
      ∧ s1._contentSize = Size.ofVec2
          (((e.Process outline).foldl boundsStep (⟨FLT_MAX, FLT_MAX⟩, Vec2.ZERO)).2
            - ((e.Process outline).foldl boundsStep (⟨FLT_MAX, FLT_MAX⟩, Vec2.ZERO)).1) := by
  rw [setTexturePolygon_true_eq e s t outline ht]
  exact ⟨_, _, _, rfl, rfl, rfl, rfl, by simp, by simp, rfl, rfl⟩

/-- C6: after `setTexturePolygon` and any run of `setTexture` calls that follows it, a
primitive with `isDetermineBounds()` true has every stored point `p` within
`0 ≤ p.x ≤ contentSize.width` and `0 ≤ p.y ≤ contentSize.height`, and a primitive with
`isDetermineBounds()` false stores exactly the triangulator's output. -/
theorem positions_invariant (e : Engine) (s : FilledPolygon) (t : Texture2D)
    (outline : List Vec2) (determineBounds : Bool) (ts : List Texture2D)
    (ht : s._texture = some t) :
    ∃ s1 s2 P, setTexturePolygon e s outline determineBounds = some s1
      ∧ setTextures e s1 ts = some s2
      ∧ s2.isDetermineBounds = determineBounds
      ∧ s2._positionTriangles = some P
      ∧ (s2.isDetermineBounds = true →
          ∀ p ∈ P, 0 ≤ p.x ∧ p.x ≤ s2.getContentSize.width
            ∧ 0 ≤ p.y ∧ p.y ≤ s2.getContentSize.height)
      ∧ (s2.isDetermineBounds = false → P = e.Process outline) := by
  cases determineBounds
  · obtain ⟨s1, U, h1, hP, hU, hPl, hUl, hd⟩ := setTexturePolygon_false_summary e s t outline ht
    obtain ⟨s2, h2, hP2, hd2, _⟩ := setTextures_frame e ts s1 _ U hP hU hPl hUl
    refine ⟨s1, s2, _, h1, h2, hd2.trans hd, hP2, ?_, fun _ => rfl⟩
    intro h
    rw [isDetermineBounds, hd2, hd] at h
    exact absurd h (by decide)
  · obtain ⟨s1, P, U, h1, hPeq, hP, hU, hPl, hUl, hd, hs⟩ :=
      setTexturePolygon_true_summary e s t outline ht
    obtain ⟨s2, h2, hP2, hd2, hs2⟩ := setTextures_frame e ts s1 P U hP hU hPl hUl
    refine ⟨s1, s2, P, h1, h2, hd2.trans hd, hP2, ?_, ?_⟩
    · intro _ p hp
      rw [hPeq] at hp
      obtain ⟨q, hq, rfl⟩ := List.mem_map.mp hp
      obtain ⟨hx, hy, hX, hY⟩ :=
        bounds_enclose (e.Process outline) (⟨FLT_MAX, FLT_MAX⟩, Vec2.ZERO) q hq
      have hsx : ∀ a b : Vec2, (a - b).x = a.x - b.x := fun _ _ => rfl
      have hsy : ∀ a b : Vec2, (a - b).y = a.y - b.y := fun _ _ => rfl
      rw [getContentSize, hs2, hs]
      simp only [Size.ofVec2, hsx, hsy]
      refine ⟨?_, ?_, ?_, ?_⟩ <;> linarith
    · intro h
      rw [isDetermineBounds, hd2, hd] at h
      exact absurd h (by decide)

/-- C6, evaluated: the outline `[(50,50),(150,50),(150,150),(50,150)]` with the flag set,
followed by two texture changes. -/
theorem positions_invariant_squareAt50 :
    Sample.textured._texture = some Sample.texture100
    ∧ (∃ s1 s2 P, setTexturePolygon Sample.engine Sample.textured Sample.squareAt50 true = some s1
      ∧ setTextures Sample.engine s1 [Sample.texture200, Sample.texture100] = some s2
      ∧ s2.isDetermineBounds = true
      ∧ s2._positionTriangles = some P
      ∧ (s2.isDetermineBounds = true →
          ∀ p ∈ P, 0 ≤ p.x ∧ p.x ≤ s2.getContentSize.width
            ∧ 0 ≤ p.y ∧ p.y ≤ s2.getContentSize.height)
      ∧ (s2.isDetermineBounds = false → P = Sample.engine.Process Sample.squareAt50))
    ∧ ((setTexturePolygon Sample.engine Sample.textured Sample.squareAt50 true).bind
          (fun s1 => setTextures Sample.engine s1 [Sample.texture200, Sample.texture100])).map
          (fun s2 => (s2._positionTriangles, s2.getContentSize))
        = some (some [⟨0, 100⟩, ⟨0, 0⟩, ⟨100, 0⟩, ⟨100, 0⟩, ⟨100, 100⟩, ⟨0, 100⟩], ⟨100, 100⟩) :=
  ⟨rfl,
    positions_invariant Sample.engine Sample.textured Sample.texture100 Sample.squareAt50 true
      [Sample.texture200, Sample.texture100] rfl,
    by decide!⟩

/-- C7 as stated fails: two primitives that hold the same texture, one fresh and one left by
`setTexturePolygon(squareAt50, true)`, report different origins and content sizes after the
same call `setTexturePolygon(square, false)`. -/
theorem setTexturePolygon_false_keeps_prior_bounds :
    (setTexturePolygon Sample.engine Sample.textured Sample.squareAt50 true).map
        (fun s2 => s2._texture) = some Sample.textured._texture
    ∧ (setTexturePolygon Sample.engine Sample.textured Sample.square false).map
        (fun r1 => (r1.getBoundsOrigin, r1.getContentSize)) = some (⟨0, 0⟩, ⟨0, 0⟩)
    ∧ ((setTexturePolygon Sample.engine Sample.textured Sample.squareAt50 true).bind
        (fun s2 => setTexturePolygon Sample.engine s2 Sample.square false)).map
        (fun r2 => (r2.getBoundsOrigin, r2.getContentSize)) = some (⟨50, 50⟩, ⟨100, 100⟩) := by
  decide!

/-- C7, amended: for every two prior states that hold the same texture and every outline and
flag value, the position list, the texture-coordinate list, the vertex count and the flag after
`setTexturePolygon` are identical; with the flag set, `getBoundsOrigin()` and the content size
are identical too; with the flag clear, each primitive keeps the origin and the content size it
had before the call. -/
theorem setTexturePolygon_discards_prior_geometry (e : Engine) (s1 s2 : FilledPolygon)
    (t : Texture2D) (outline : List Vec2) (determineBounds : Bool)
    (h1 : s1._texture = some t) (h2 : s2._texture = some t) :
    ∃ r1 r2, setTexturePolygon e s1 outline determineBounds = some r1
      ∧ setTexturePolygon e s2 outline determineBounds = some r2
      ∧ r1._positionTriangles = r2._positionTriangles
      ∧ r1._textureTriangles = r2._textureTriangles
      ∧ r1._verticesCount = r2._verticesCount
      ∧ r1.isDetermineBounds = r2.isDetermineBounds
      ∧ (determineBounds = true →
          r1.getBoundsOrigin = r2.getBoundsOrigin ∧ r1.getContentSize = r2.getContentSize)
      ∧ (determineBounds = false →
          r1.getBoundsOrigin = s1.getBoundsOrigin ∧ r1.getContentSize = s1.getContentSize
            ∧ r2.getBoundsOrigin = s2.getBoundsOrigin
            ∧ r2.getContentSize = s2.getContentSize) := by
  cases determineBounds
  · rw [setTexturePolygon_false_eq e s1 t outline h1, setTexturePolygon_false_eq e s2 t outline h2]
    refine ⟨_, _, rfl, rfl, rfl, ?_, rfl, rfl, by simp, fun _ => ⟨rfl, rfl, rfl, rfl⟩⟩
    simp only [Option.some.injEq]
    apply List.map_congr_left
    intro p _
    simp [textureCoordinate]
  · rw [setTexturePolygon_true_eq e s1 t outline h1, setTexturePolygon_true_eq e s2 t outline h2]
    exact ⟨_, _, rfl, rfl, rfl, rfl, rfl, rfl, fun _ => ⟨rfl, rfl⟩, by simp⟩

/-- C7 amended, evaluated: a fresh primitive and the square primitive, both holding the
100 x 100 texture, are given the same outline with the flag set. -/
theorem setTexturePolygon_discards_prior_geometry_square :
    (Sample.textured._texture = some Sample.texture100
      ∧ Sample.squarePrimitive._texture = some Sample.texture100)
    ∧ ∃ r1 r2, setTexturePolygon Sample.engine Sample.textured Sample.squareAt50 true = some r1
      ∧ setTexturePolygon Sample.engine Sample.squarePrimitive Sample.squareAt50 true = some r2
      ∧ r1._positionTriangles = r2._positionTriangles
      ∧ r1._textureTriangles = r2._textureTriangles
      ∧ r1._verticesCount = r2._verticesCount
      ∧ r1.isDetermineBounds = r2.isDetermineBounds
      ∧ (true = true →
          r1.getBoundsOrigin = r2.getBoundsOrigin ∧ r1.getContentSize = r2.getContentSize)
      ∧ (true = false →
          r1.getBoundsOrigin = Sample.textured.getBoundsOrigin
            ∧ r1.getContentSize = Sample.textured.getContentSize
            ∧ r2.getBoundsOrigin = Sample.squarePrimitive.getBoundsOrigin
            ∧ r2.getContentSize = Sample.squarePrimitive.getContentSize) :=
  ⟨⟨rfl, rfl⟩,
    setTexturePolygon_discards_prior_geometry Sample.engine Sample.textured
      Sample.squarePrimitive Sample.texture100 Sample.squareAt50 true rfl rfl⟩

/-- C8: on a primitive that holds geometry, `setTexture(t2)` for a texture `t2` other than the
one held (pixel size `w2` x `h2`) leaves the positions, the vertex count, the origin and the
flag unchanged, and stores at every index `i` the mapping formula evaluated with `w2` and `h2`:
`(P[i].x / w2 * s, 1 - P[i].y / h2 * s)` with the flag clear, and the same with `P[i] + origin`
in place of `P[i]` with the flag set. -/
theorem setTexture_recomputes_uv (e : Engine) (s : FilledPolygon) (t2 : Texture2D)
    (P : List Vec2) (hg : s.holdsGeometry = true) (hP : s._positionTriangles = some P)
    (hne : ptrNe s.getTexture (some t2) = true) :
    ∃ s1 U1, setTexture e s (some t2) = some s1
      ∧ s1._positionTriangles = some P
      ∧ s1._verticesCount = s._verticesCount
      ∧ s1.getBoundsOrigin = s.getBoundsOrigin
      ∧ s1.isDetermineBounds = s.isDetermineBounds
      ∧ s1._textureTriangles = some U1 ∧ U1.length = P.length
      ∧ ∀ (i : Nat) (hi : i < P.length) (hu : i < U1.length),
          U1[i] =
            if s.isDetermineBounds then
              ⟨(P[i].x + s.getBoundsOrigin.x) / (t2.getPixelsWide : ℚ) * e.contentScaleFactor,
                1 - (P[i].y + s.getBoundsOrigin.y) / (t2.getPixelsHigh : ℚ)
                  * e.contentScaleFactor⟩
            else
              ⟨P[i].x / (t2.getPixelsWide : ℚ) * e.contentScaleFactor,
                1 - P[i].y / (t2.getPixelsHigh : ℚ) * e.contentScaleFactor⟩ := by
  obtain ⟨P0, U, hP0, hU, hPl, hUl⟩ := (holdsGeometry_iff s).mp hg
  have hPP : P0 = P := Option.some.inj (hP0.symm.trans hP)
  subst hPP
  obtain ⟨t1, _, _, _, _, h⟩ := setTexture_changed e s t2 P0 U hne hP hU hPl hUl
  rw [h]
  refine ⟨_, _, rfl, hP, rfl, rfl, rfl, rfl, by simp, ?_⟩
  intro i hi hu
  rw [List.getElem_map]
  by_cases hd : s._determineBounds = true <;>
    simp [textureCoordinate, isDetermineBounds, getBoundsOrigin, hd]

/-- C8, evaluated: the square primitive, built with the 100 x 100 texture, is given the
200 x 50 texture; the positions stay and the texture coordinates become
`(x / 200, 1 - y / 50)`. -/
theorem setTexture_recomputes_uv_square :
    (Sample.squarePrimitive.holdsGeometry = true
      ∧ Sample.squarePrimitive._positionTriangles
          = some [⟨0, 100⟩, ⟨0, 0⟩, ⟨100, 0⟩, ⟨100, 0⟩, ⟨100, 100⟩, ⟨0, 100⟩]
      ∧ ptrNe Sample.squarePrimitive.getTexture (some Sample.texture200) = true)
    ∧ (∃ s1 U1, setTexture Sample.engine Sample.squarePrimitive (some Sample.texture200) = some s1
      ∧ s1._positionTriangles
          = some [⟨0, 100⟩, ⟨0, 0⟩, ⟨100, 0⟩, ⟨100, 0⟩, ⟨100, 100⟩, ⟨0, 100⟩]
      ∧ s1._verticesCount = Sample.squarePrimitive._verticesCount
      ∧ s1.getBoundsOrigin = Sample.squarePrimitive.getBoundsOrigin
      ∧ s1.isDetermineBounds = Sample.squarePrimitive.isDetermineBounds
      ∧ s1._textureTriangles = some U1
      ∧ U1.length
          = ([⟨0, 100⟩, ⟨0, 0⟩, ⟨100, 0⟩, ⟨100, 0⟩, ⟨100, 100⟩, ⟨0, 100⟩] : List Vec2).length
      ∧ ∀ (i : Nat)
          (hi : i <
            ([⟨0, 100⟩, ⟨0, 0⟩, ⟨100, 0⟩, ⟨100, 0⟩, ⟨100, 100⟩, ⟨0, 100⟩] : List Vec2).length)
          (hu : i < U1.length),
          U1[i] =
            if Sample.squarePrimitive.isDetermineBounds then
              ⟨(([⟨0, 100⟩, ⟨0, 0⟩, ⟨100, 0⟩, ⟨100, 0⟩, ⟨100, 100⟩, ⟨0, 100⟩] : List Vec2)[i].x
                    + Sample.squarePrimitive.getBoundsOrigin.x)
                  / (Sample.texture200.getPixelsWide : ℚ) * Sample.engine.contentScaleFactor,
                1 - (([⟨0, 100⟩, ⟨0, 0⟩, ⟨100, 0⟩, ⟨100, 0⟩, ⟨100, 100⟩, ⟨0, 100⟩] :
                      List Vec2)[i].y + Sample.squarePrimitive.getBoundsOrigin.y)
                  / (Sample.texture200.getPixelsHigh : ℚ) * Sample.engine.contentScaleFactor⟩
            else
              ⟨([⟨0, 100⟩, ⟨0, 0⟩, ⟨100, 0⟩, ⟨100, 0⟩, ⟨100, 100⟩, ⟨0, 100⟩] : List Vec2)[i].x
                  / (Sample.texture200.getPixelsWide : ℚ) * Sample.engine.contentScaleFactor,
                1 - ([⟨0, 100⟩, ⟨0, 0⟩, ⟨100, 0⟩, ⟨100, 0⟩, ⟨100, 100⟩, ⟨0, 100⟩] :
                      List Vec2)[i].y
                  / (Sample.texture200.getPixelsHigh : ℚ) * Sample.engine.contentScaleFactor⟩)
    ∧ (setTexture Sample.engine Sample.squarePrimitive (some Sample.texture200)).map
          (fun s1 => (s1._positionTriangles, s1._textureTriangles))
        = some (some [⟨0, 100⟩, ⟨0, 0⟩, ⟨100, 0⟩, ⟨100, 0⟩, ⟨100, 100⟩, ⟨0, 100⟩],
            some [⟨0, -1⟩, ⟨0, 1⟩, ⟨1/2, 1⟩, ⟨1/2, 1⟩, ⟨1/2, -1⟩, ⟨0, -1⟩]) :=
  ⟨⟨by decide, rfl, by decide⟩,
    setTexture_recomputes_uv Sample.engine Sample.squarePrimitive Sample.texture200 _
      (by decide) rfl (by decide),
    by decide!⟩

/-- C9: `draw` adds no command to the renderer when `_verticesCount ≤ 1` and exactly one
command, tagged with the current ordering key, otherwise; either way the position list and the
texture-coordinate list stay as they were. A primitive whose triangle list is empty submits no
command, and the triangulator returns the empty list for an outline of 0, 1 or 2 points. -/
theorem draw_guard (s : FilledPolygon) (renderer : Renderer) (transform : Mat4) (flags : Nat) :
    (s.draw renderer transform flags).2
        = (if s._verticesCount ≤ 1 then renderer
            else renderer.addCommand ⟨s._globalZOrder, some (transform, flags)⟩)
      ∧ (s.draw renderer transform flags).1._positionTriangles = s._positionTriangles
      ∧ (s.draw renderer transform flags).1._textureTriangles = s._textureTriangles
      ∧ (∀ (e : Engine) (outline : List Vec2) (determineBounds : Bool),
          e.Process outline = [] →
          ∃ s1, setTexturePolygon e s outline determineBounds = some s1
            ∧ (s1.draw renderer transform flags).2 = renderer)
      ∧ (∀ (fb : Triangulate.Fallback) (outline : List Vec2), outline.length ≤ 2 →
          Triangulate.triangulate fb outline = []) := by
  refine ⟨?_, ?_, ?_, ?_, ?_⟩
  · unfold draw
    split_ifs <;> rfl
  · unfold draw
    split_ifs <;> rfl
  · unfold draw
    split_ifs <;> rfl
  · intro e outline determineBounds hT
    obtain ⟨s1, h1, hc, _, _⟩ := setTexturePolygon_empty e s outline determineBounds hT
    refine ⟨s1, h1, ?_⟩
    unfold draw
    rw [if_pos (by omega)]
  · intro fb outline h
    exact Triangulate.triangulate_short fb outline h

/-- C9, evaluated: a fresh primitive given an outline of two points queues nothing, and the
square primitive queues one command. -/
theorem draw_guard_samples :
    ((setTexturePolygon Sample.engine Sample.fresh [⟨0, 0⟩, ⟨1, 1⟩] false).map
        (fun s1 => (s1._verticesCount, (s1.draw ⟨[]⟩ ⟨[]⟩ 0).2)) = some (0, ⟨[]⟩))
    ∧ (Sample.squarePrimitive.draw ⟨[]⟩ ⟨[]⟩ 0).2 = ⟨[⟨0, some (⟨[]⟩, 0)⟩]⟩
    ∧ ∃ s1, setTexturePolygon Sample.engine Sample.fresh [⟨0, 0⟩, ⟨1, 1⟩] false = some s1
        ∧ (s1.draw ⟨[]⟩ ⟨[]⟩ 0).2 = ⟨[]⟩ :=
  ⟨by decide!, by decide!,
    (draw_guard Sample.fresh ⟨[]⟩ ⟨[]⟩ 0).2.2.2.1 Sample.engine [⟨0, 0⟩, ⟨1, 1⟩] false
      ((draw_guard Sample.fresh ⟨[]⟩ ⟨[]⟩ 0).2.2.2.2 Triangulate.Fallback.forceEmit
        [⟨0, 0⟩, ⟨1, 1⟩] (by decide))⟩

/-- C10 as stated fails: a primitive that holds the 100 x 100 texture, which is not
premultiplied, and whose blend mode was set to `(1, 1)` with `setBlendFunc` keeps `(1, 1)`
after `setTexture` with that same texture. -/
theorem setTexture_same_texture_keeps_blendFunc :
    Sample.texture100.hasPremultipliedAlpha = false
    ∧ (setTexture Sample.engine (Sample.textured.setBlendFunc ⟨1, 1⟩)
          (some Sample.texture100)).map getBlendFunc = some ⟨1, 1⟩
    ∧ (⟨1, 1⟩ : BlendFunc) ≠ ⟨GL_SRC_ALPHA, GL_ONE_MINUS_SRC_ALPHA⟩ := by
  decide!

/-- C10, amended: for every primitive state the class can be in, whatever its blend mode,
and every non-null texture `t`: if `t` is not the texture held, after `setTexture(t)` the blend
mode is `(GL_SRC_ALPHA, GL_ONE_MINUS_SRC_ALPHA)` if `t` is not premultiplied and
`(CC_BLEND_SRC, CC_BLEND_DST)` if it is; if `t` is the texture held, the blend mode stays what
it was. -/
theorem setTexture_blendFunc (e : Engine) (s : FilledPolygon) (t : Texture2D)
    (hwf : s.wellFormed = true) :
    ∃ s1, setTexture e s (some t) = some s1
      ∧ s1.getBlendFunc
          = if ptrNe s.getTexture (some t) then
              (if t.hasPremultipliedAlpha then ⟨e.CC_BLEND_SRC, e.CC_BLEND_DST⟩
                else ⟨GL_SRC_ALPHA, GL_ONE_MINUS_SRC_ALPHA⟩)
            else s.getBlendFunc := by
  cases hne : ptrNe s._texture (some t) with
  | false =>
    refine ⟨s, setTexture_same e s _ hne, ?_⟩
    simp [getTexture, hne]
  | true =>
    simp only [getTexture, hne, if_true]
    unfold wellFormed at hwf
    rw [Bool.or_eq_true] at hwf
    rcases hwf with hg | hn
    · obtain ⟨P, U, hP, hU, hPl, hUl⟩ := (holdsGeometry_iff s).mp hg
      obtain ⟨t1, _, _, _, _, h⟩ := setTexture_changed e s t P U hne hP hU hPl hUl
      rw [h]
      exact ⟨_, rfl, rfl⟩
    · simp only [Bool.and_eq_true, Option.isNone_iff_eq_none, beq_iff_eq] at hn
      obtain ⟨⟨_, hU⟩, _⟩ := hn
      obtain ⟨t1, _, _, _, _, h⟩ := setTexture_changed_fresh e s t hne hU
      rw [h]
      exact ⟨_, rfl, rfl⟩

/-- C10 amended, evaluated: the primitive of the counterexample is given the 200 x 50
texture, which is premultiplied, and takes the engine's default pair. -/
theorem setTexture_blendFunc_texture200 :
    (Sample.textured.setBlendFunc ⟨1, 1⟩).wellFormed = true
    ∧ (∃ s1, setTexture Sample.engine (Sample.textured.setBlendFunc ⟨1, 1⟩)
          (some Sample.texture200) = some s1
      ∧ s1.getBlendFunc
          = if ptrNe (Sample.textured.setBlendFunc ⟨1, 1⟩).getTexture (some Sample.texture200) then
              (if Sample.texture200.hasPremultipliedAlpha then
                ⟨Sample.engine.CC_BLEND_SRC, Sample.engine.CC_BLEND_DST⟩
              else ⟨GL_SRC_ALPHA, GL_ONE_MINUS_SRC_ALPHA⟩)
            else (Sample.textured.setBlendFunc ⟨1, 1⟩).getBlendFunc)
    ∧ (setTexture Sample.engine (Sample.textured.setBlendFunc ⟨1, 1⟩)
          (some Sample.texture200)).map getBlendFunc = some ⟨1, GL_ONE_MINUS_SRC_ALPHA⟩ :=
  ⟨by decide,
    setTexture_blendFunc Sample.engine (Sample.textured.setBlendFunc ⟨1, 1⟩) Sample.texture200
      (by decide),
    by decide!⟩

end PRKit
